import Mathlib

/-!
Verification of the realtime-chat core: a shallow embedding of the
HPKV websocket multiplexer and the chat document-sync client, with the
spec claims settled as theorems.

Modelling conventions:
- A stored value is a string on the wire.  We represent a string by its
  observable behaviour in the code: whether it is empty (falsy in the
  truthiness checks), whether JSON.parse throws on it, and, when the
  parse succeeds, the parsed JSON value.  JSON.parse output never has
  duplicate object keys (later keys overwrite earlier ones during the
  parse), so object field lists are taken to be key-unique and field
  lookup is first-match lookup.
- JSON numbers are modelled as integers; none of the verified paths
  depends on fractional values.
- Promise settlement is modelled by explicit result values; network
  effects (which key is written with which value) are modelled by
  write traces in the order the code issues them.
-/

/-- JSON values as produced by JSON.parse. -/
inductive Json where
  | null : Json
  | bool (b : Bool) : Json
  | num (n : Int) : Json
  | str (s : String) : Json
  | arr (xs : List Json) : Json
  | obj (fields : List (String × Json)) : Json

/-- Observable behaviour of a stored string value: empty string,
a non-empty string on which JSON.parse throws, or a string parsing to
the given JSON value. -/
inductive SVal where
  | emptyStr : SVal
  | garbage : SVal
  | json (j : Json) : SVal

/-- The remote key-value store, as observed through fetches: a map
from keys to optionally present stored string values. -/
def Store : Type := String → Option SVal

/-- Pointwise update of the store, the effect of a create/overwrite. -/
def Store.set (st : Store) (k : String) (v : SVal) : Store :=
  fun key => if key = k then some v else st key

/-- The store with no keys. -/
def emptyStore : Store := fun _ => none

/-- JavaScript truthiness on a parsed JSON value (null, false, 0 and
the empty string are falsy; arrays and objects are truthy). -/
def jsFalsy : Json → Bool
  | Json.null => true
  | Json.bool b => !b
  | Json.num n => n == 0
  | Json.str s => s == ""
  | Json.arr _ => false
  | Json.obj _ => false

/-- Field lookup on a parsed JSON object; none models undefined.
Property access on any non-null primitive or array also yields
undefined.  Access on null throws, which the callers below model
explicitly. -/
def jsField (j : Json) (f : String) : Option Json :=
  match j with
  | Json.obj fs => fs.lookup f
  | _ => none

/-- The chatrooms field of a parsed registry value. -/
def chatroomsField (j : Json) : Option Json :=
  jsField j "chatrooms"

/-- Array.isArray applied to the chatrooms field. -/
def isChatroomsArray (j : Json) : Bool :=
  match chatroomsField j with
  | some (Json.arr _) => true
  | _ => false

/-- The chatroomsRegistry local of createChatroom after the parse and
the structure check: start from the literal with an empty chatrooms
list, replace it by the parsed value when the fetched value is truthy
and parses, then reset to the literal when the result is falsy or its
chatrooms field is not an array. -/
def normalizeRegistry (v : Option SVal) : Json :=
  let reg0 := match v with
    | some (SVal.json j) => j
    | _ => Json.obj [("chatrooms", Json.arr [])]
  if jsFalsy reg0 || !(isChatroomsArray reg0) then
    Json.obj [("chatrooms", Json.arr [])]
  else reg0

/-- Elements of the chatrooms array of a registry value. -/
def registryRooms (reg : Json) : List Json :=
  match chatroomsField reg with
  | some (Json.arr xs) => xs
  | _ => []

/-- The predicate of the duplicate check, room.id === roomId, for one
room entry.  Property access on a null entry throws a TypeError, which
propagates: that is the error case.  On every other non-object the id
field reads as undefined and the strict equality is false. -/
def jsIdEq (room : Json) (rid : String) : Except Unit Bool :=
  match room with
  | Json.null => Except.error ()
  | Json.obj fs =>
      match fs.lookup "id" with
      | some (Json.str s) => Except.ok (decide (s = rid))
      | _ => Except.ok false
  | _ => Except.ok false

/-- Array.prototype.some over the room entries with the id comparison:
short-circuits on the first match, and a thrown TypeError aborts the
traversal. -/
def jsSomeIdEq : List Json → String → Except Unit Bool
  | [], _ => Except.ok false
  | r :: rest, rid =>
      match jsIdEq r rid with
      | Except.error e => Except.error e
      | Except.ok true => Except.ok true
      | Except.ok false => jsSomeIdEq rest rid

/-- The JSON object literal for a new room entry: id, display name
defaulting to the id, creation timestamp. -/
def roomJson (roomId : String) (roomName : Option String) (now : Int) : Json :=
  Json.obj [("id", Json.str roomId),
            ("name", Json.str (roomName.getD roomId)),
            ("createdAt", Json.num now)]

/-- Effect of chatroomsRegistry.chatrooms.push(roomInfo) followed by
JSON.stringify of the whole registry object: the chatrooms field is
replaced by the extended array, all other fields kept in place. -/
def setChatrooms (reg : Json) (xs : List Json) : Json :=
  match reg with
  | Json.obj fs =>
      Json.obj (fs.map (fun p => if p.1 = "chatrooms" then ("chatrooms", Json.arr xs) else p))
  | other => other

/-- Failure modes of createChatroom: the duplicate-id rejection, or a
TypeError thrown while scanning a registry containing a null entry. -/
inductive CreateErr where
  | alreadyExists : CreateErr
  | typeError : CreateErr

/-- ChatClient.createChatroom: fetch the chatrooms registry, parse and
normalize it, reject when the room id is already present, otherwise
push the new entry and overwrite the registry key.  The result carries
the updated store together with the trace of writes performed, in
order. -/
def createChatroom (roomId : String) (roomName : Option String) (now : Int)
    (st : Store) : Except CreateErr (Store × List (String × SVal)) :=
  let reg := normalizeRegistry (st "chatrooms")
  let rooms := registryRooms reg
  match jsSomeIdEq rooms roomId with
  | Except.error _ => Except.error CreateErr.typeError
  | Except.ok true => Except.error CreateErr.alreadyExists
  | Except.ok false =>
      let newReg := setChatrooms reg (rooms ++ [roomJson roomId roomName now])
      Except.ok (Store.set st "chatrooms" (SVal.json newReg),
                 [("chatrooms", SVal.json newReg)])

/-- Room entries currently stored under the chatrooms key of a store,
read back the way the code reads them. -/
def storedRegistryRooms (st : Store) : List Json :=
  match st "chatrooms" with
  | some (SVal.json j) => registryRooms j
  | _ => []

/-- The id field of a stored room entry, for counting registry entries
with a given id. -/
def idField (room : Json) : Option Json :=
  match room with
  | Json.obj fs => fs.lookup "id"
  | _ => none

/-- Whether a stored room entry has the given string as its id field. -/
def isIdStr (room : Json) (rid : String) : Bool :=
  match idField room with
  | some (Json.str s) => decide (s = rid)
  | _ => false

/-- Number of entries in a list of room values whose id field is the
given string. -/
def countId (xs : List Json) (rid : String) : Nat :=
  (xs.filter (fun r => isIdStr r rid)).length

/-- ChatClient.getChatrooms, the store-interaction part, applied to the
fetched value of the chatrooms key.  Returns the trace of writes it
performs together with the JavaScript value the method returns, where
none models undefined.  A falsy fetched value returns the empty array
before any parse; a parse failure, and equally a TypeError from
reading the chatrooms field of null, lands in the catch block which
writes an empty registry back and returns the empty array; any other
parsed value has its chatrooms field returned as is. -/
def getChatrooms (v : Option SVal) : List (String × SVal) × Option Json :=
  match v with
  | none => ([], some (Json.arr []))
  | some SVal.emptyStr => ([], some (Json.arr []))
  | some SVal.garbage =>
      ([("chatrooms", SVal.json (Json.obj [("chatrooms", Json.arr [])]))],
       some (Json.arr []))
  | some (SVal.json Json.null) =>
      ([("chatrooms", SVal.json (Json.obj [("chatrooms", Json.arr [])]))],
       some (Json.arr []))
  | some (SVal.json (Json.obj fs)) => ([], fs.lookup "chatrooms")
  | some (SVal.json _) => ([], none)

/-- A chat message as constructed by sendMessage. -/
structure ChatMessage where
  sender : String
  message : String
  timestamp : Int
  id : String

/-- JSON encoding of a chat message. -/
def messageJson (m : ChatMessage) : Json :=
  Json.obj [("sender", Json.str m.sender),
            ("message", Json.str m.message),
            ("timestamp", Json.num m.timestamp),
            ("id", Json.str m.id)]

/-- The existingMessages extraction of sendMessage from a fetched room
document value: the messages field when the value parses to an object
carrying an array there, and the empty list in every other case (falsy
value, parse failure, TypeError on null, messages missing or not an
array) with the error logged and swallowed. -/
def parseMessages : Option SVal → List Json
  | some (SVal.json (Json.obj fs)) =>
      match fs.lookup "messages" with
      | some (Json.arr xs) => xs
      | _ => []
  | _ => []

/-- The existingMessages local of sendMessage: a failed fetch is caught
and degraded to the empty list, otherwise the payload is parsed. -/
def existingMessages (fetchRes : Except Unit (Option SVal)) : List Json :=
  match fetchRes with
  | Except.error _ => []
  | Except.ok v => parseMessages v

/-- Failure mode of sendMessage when no room session is active. -/
inductive SendErr where
  | noRoomJoined : SendErr

/-- ChatClient.sendMessage: requires a joined room, builds the new
message from the ambient username (defaulting to Anonymous), the text,
the current time and a fresh id, appends it to whatever messages the
fetch of the room document produced, and overwrites the room document.
The fetch outcome is passed in explicitly; the result is the trace of
writes performed. -/
def sendMessage (roomId : Option String) (username : Option String)
    (text : String) (now : Int) (mid : String)
    (fetchRes : Except Unit (Option SVal)) :
    Except SendErr (List (String × SVal)) :=
  match roomId with
  | none => Except.error SendErr.noRoomJoined
  | some rid =>
      let sender := username.getD "Anonymous"
      let newMsg : ChatMessage := ⟨sender, text, now, mid⟩
      let updated := existingMessages fetchRes ++ [messageJson newMsg]
      Except.ok [("chat:" ++ rid, SVal.json (Json.obj [("messages", Json.arr updated)]))]

/-- Browser WebSocket ready states. -/
inductive ReadyState where
  | connecting : ReadyState
  | opened : ReadyState
  | closing : ReadyState
  | closed : ReadyState
deriving DecidableEq, Repr

/-- State of an HPKVWebsocketClient instance: the current socket and
its ready state (none when the ws field is null), the last allocated
correlation id, whether a connectionPromise is stored, the pending
callback table as the list of outstanding correlation ids in insertion
order, and the number of WebSocket objects ever constructed. -/
structure MuxState where
  ws : Option ReadyState
  messageId : Nat
  connPromise : Bool
  pending : List Nat
  sockCount : Nat
deriving DecidableEq, Repr

/-- Settlement events observed by callers of the multiplexer: how an
outstanding request with the given correlation id was resolved or
rejected. -/
inductive Settle where
  | success (mid : Nat) : Settle
  | remoteErr (mid : Nat) : Settle
  | timedOut (mid : Nat) : Settle
  | connClosed (mid : Nat) : Settle
deriving DecidableEq, Repr

/-- Fast-fail error of the request path when no socket is open. -/
inductive ReqErr where
  | notConnected : ReqErr
deriving DecidableEq, Repr

/-- The request timeout budget armed per request, in milliseconds. -/
def requestTimeoutMs : Nat := 30000

/-- One request through insert, get or append: getNextMessageId
increments the counter unconditionally, then sendMessage checks the
connection, registers the callback under the fresh id and writes the
envelope to the socket.  When no socket is open the call rejects
without touching the table. -/
def request (s : MuxState) : MuxState × Except ReqErr Nat :=
  let mid := s.messageId + 1
  let s1 : MuxState := { s with messageId := mid }
  if s1.ws = some ReadyState.opened then
    ({ s1 with pending := s1.pending ++ [mid] }, Except.ok mid)
  else (s1, Except.error ReqErr.notConnected)

/-- The armed timeout for a correlation id fires: when the id is still
in the table it is deleted and the call rejects with the timeout
error, otherwise nothing happens. -/
def timeoutFires (s : MuxState) (mid : Nat) : MuxState × List Settle :=
  if mid ∈ s.pending then
    ({ s with pending := s.pending.erase mid }, [Settle.timedOut mid])
  else (s, [])

/-- A correlated response envelope arrives: when its id is in the
table, the call resolves, or rejects when the envelope carries an
error field, and the id is deleted; an unknown id is ignored. -/
def responseArrives (s : MuxState) (mid : Nat) (isErr : Bool) : MuxState × List Settle :=
  if mid ∈ s.pending then
    ({ s with pending := s.pending.erase mid },
     [if isErr then Settle.remoteErr mid else Settle.success mid])
  else (s, [])

/-- HPKVWebsocketClient.close: when a socket exists, close is called on
it and the ws and connectionPromise fields are nulled.  The pending
table is not touched here; it is the close event on the socket that
fails the pending calls. -/
def close (s : MuxState) : MuxState :=
  match s.ws with
  | some _ => { s with ws := none, connPromise := false }
  | none => s

/-- The onclose handler of the socket: null the ws and the stored
promise, reject every pending callback with the connection-closed
error, and clear the table. -/
def oncloseEvent (s : MuxState) : MuxState × List Settle :=
  ({ s with ws := none, connPromise := false, pending := [] },
   s.pending.map Settle.connClosed)

/-- Socket-level actions performed by one connect call, in order. -/
inductive ConnAct where
  | closedOld : ConnAct
  | created : ConnAct
deriving DecidableEq, Repr

/-- Outcome of one connect call. -/
inductive ConnOutcome where
  | alreadyOpen : ConnOutcome
  | inFlight : ConnOutcome
  | attempt : ConnOutcome
deriving DecidableEq, Repr

/-- HPKVWebsocketClient.connect: an open socket resolves immediately;
a connecting socket with a stored promise returns that in-flight
promise; otherwise any existing socket is closed first and a new
WebSocket is constructed in the connecting state with a fresh stored
promise.  The trace records the socket-level actions in order. -/
def connect (s : MuxState) : MuxState × ConnOutcome × List ConnAct :=
  if s.ws = some ReadyState.opened then (s, ConnOutcome.alreadyOpen, [])
  else if s.connPromise = true ∧ s.ws = some ReadyState.connecting then
    (s, ConnOutcome.inFlight, [])
  else
    let closeActs : List ConnAct := if s.ws.isSome then [ConnAct.closedOld] else []
    let s1 := if s.ws.isSome then close s else s
    ({ s1 with ws := some ReadyState.connecting, connPromise := true,
               sockCount := s1.sockCount + 1 },
     ConnOutcome.attempt, closeActs ++ [ConnAct.created])

/-- Outcome of running one piece of JavaScript that may throw. -/
inductive JsOutcome (α : Type) where
  | ok (a : α) : JsOutcome α
  | thrown : JsOutcome α
deriving DecidableEq, Repr

/-- JavaScript forEach semantics over handler identifiers: the body
runs on each element in order, and an uncaught throw from the body
aborts the iteration and propagates.  The second component records
which handlers were actually invoked, in order. -/
def jsForEachRun (hs : List Nat) (body : Nat → JsOutcome Unit) :
    JsOutcome Unit × List Nat :=
  match hs with
  | [] => (JsOutcome.ok (), [])
  | h :: rest =>
      match body h with
      | JsOutcome.ok _ =>
          let r := jsForEachRun rest body
          (r.1, h :: r.2)
      | JsOutcome.thrown => (JsOutcome.thrown, [h])

/-- The loop body of the notification fan-out: each handler invocation
is wrapped in its own try/catch whose catch block only logs, so a
throwing handler still completes the iteration step normally. -/
def guardedHandler (beh : Nat → JsOutcome Unit) (h : Nat) : JsOutcome Unit :=
  match beh h with
  | JsOutcome.ok _ => JsOutcome.ok ()
  | JsOutcome.thrown => JsOutcome.ok ()

/-- The notification branch of ws.onmessage: fan the notification out
to every registered handler with the per-handler guard, with beh
giving each handler behaviour on this notification. -/
def dispatchNotification (handlers : List Nat) (beh : Nat → JsOutcome Unit) :
    JsOutcome Unit × List Nat :=
  jsForEachRun handlers (guardedHandler beh)

/-- State of a ChatClient instance, at the granularity the sequential
session claims need: the stored join connectionPromise and initialize
promise identified by numbers, the recorded current room, whether the
notification subscription is armed, and whether the underlying socket
is connected. -/
structure CCState where
  connectionPromise : Option Nat
  initializePromise : Option Nat
  roomId : Option String
  subscribed : Bool
  connected : Bool
deriving DecidableEq, Repr

/-- A ChatClient that was never connected. -/
def ccInit : CCState := ⟨none, none, none, false, false⟩

/-- ChatClient.disconnect: drop the notification subscription, close
the websocket client, and clear both stored promises.  The recorded
room id is not cleared here. -/
def ccDisconnect (s : CCState) : CCState :=
  { s with subscribed := false, connected := false,
           connectionPromise := none, initializePromise := none }

/-- Result of one join call: either the stored promise was returned
untouched, or a new session attempt ran to completion or failure. -/
inductive JoinResult where
  | returnedExisting (p : Nat) : JoinResult
  | newSession (p : Nat) : JoinResult
  | failed : JoinResult
deriving DecidableEq, Repr

/-- ChatClient.join run to completion from a quiescent state: when a
connectionPromise is stored, that promise is returned with no other
effect; otherwise the client disconnects, fetches a token, connects,
records the room id, arms the subscription and leaves the new promise
stored.  A token or connect failure clears the stored promise. -/
def join (s : CCState) (newRoom : String) (tokenOk : Bool) (fresh : Nat) :
    CCState × JoinResult :=
  match s.connectionPromise with
  | some p => (s, JoinResult.returnedExisting p)
  | none =>
      let s1 := ccDisconnect s
      if tokenOk then
        ({ s1 with connected := true, roomId := some newRoom,
                   subscribed := true, connectionPromise := some fresh },
         JoinResult.newSession fresh)
      else (s1, JoinResult.failed)

/-- Statement of the two-write reading of room creation: every
successful createChatroom call would first write an empty room
document for the new id and then overwrite the registry. -/
def C1TwoWriteClaim : Prop :=
  ∀ (roomId : String) (roomName : Option String) (now : Int) (st : Store)
    (res : Store × List (String × SVal)),
    createChatroom roomId roomName now st = Except.ok res →
    ∃ v, res.2 = [("chat:" ++ roomId, SVal.json (Json.obj [("messages", Json.arr [])])),
                  ("chatrooms", v)]

/-- A fetched room-document payload that the sendMessage parse treats
as carrying no messages: unparsable, empty, parsing to null or to a
non-object, or an object without a messages array. -/
def docMalformed : Option SVal → Prop
  | some (SVal.json (Json.obj fs)) => ∀ xs, fs.lookup "messages" ≠ some (Json.arr xs)
  | some (SVal.json _) => True
  | some SVal.garbage => True
  | some SVal.emptyStr => True
  | none => False

/-- The registry value stored after creating room r1 in an empty
store at time 0. -/
def regAfterR1 : SVal :=
  SVal.json (Json.obj [("chatrooms", Json.arr [roomJson "r1" none 0])])

/-- C5: for every incoming push notification and every set of
currently-subscribed handlers, dispatch invokes every handler in the
set even when an earlier handler throws: each failure is caught, does
not prevent the remaining handlers from running, and does not
propagate to the message-processing control flow. -/
theorem notification_fanout_isolated (handlers : List Nat) (beh : Nat → JsOutcome Unit) :
    dispatchNotification handlers beh = (JsOutcome.ok (), handlers) := by
  induction handlers with
  | nil => rfl
  | cons h rest ih =>
      have hg : guardedHandler beh h = JsOutcome.ok () := by
        unfold guardedHandler
        cases beh h <;> rfl
      simp only [dispatchNotification] at ih
      simp [dispatchNotification, jsForEachRun, hg, ih]

/-- C2: after a completed join of r1, a join of r2 returns the stale
stored promise of the first join and leaves the recorded room r1; no
new session is established for r2. -/
theorem join_after_completed_join_is_stale :
    (join ccInit "r1" true 1).1.roomId = some "r1" ∧
    join (join ccInit "r1" true 1).1 "r2" true 2 =
      ((join ccInit "r1" true 1).1, JoinResult.returnedExisting 1) ∧
    (join (join ccInit "r1" true 1).1 "r2" true 2).1.roomId ≠ some "r2" := by
  refine ⟨rfl, rfl, ?_⟩
  intro h
  simp [join, ccInit, ccDisconnect] at h

/-- C8 counterexample: a registry value that parses as a JSON object
without a chatrooms field makes getChatrooms return undefined, not the
empty list. -/
theorem getChatrooms_missing_field_not_empty :
    (getChatrooms (some (SVal.json (Json.obj [])))).2 = none ∧
    (getChatrooms (some (SVal.json (Json.obj [])))).2 ≠ some (Json.arr []) := by
  refine ⟨rfl, ?_⟩
  intro h
  simp [getChatrooms] at h

/-- C8 amended: listRooms degrades to the empty list whenever the
registry key is absent, its value is the empty string, JSON.parse
throws on it, or it parses to null; a value parsing to anything else
without a chatrooms array instead has the raw chatrooms field access
result returned. -/
theorem getChatrooms_degrades_to_empty (v : Option SVal)
    (h : v = none ∨ v = some SVal.emptyStr ∨ v = some SVal.garbage ∨
         v = some (SVal.json Json.null)) :
    (getChatrooms v).2 = some (Json.arr []) := by
  rcases h with h | h | h | h <;> subst h <;> rfl

/-- Witness for the amended C8 theorem at the absent-key input. -/
theorem getChatrooms_degrades_to_empty_witness :
    (getChatrooms none).2 = some (Json.arr []) :=
  getChatrooms_degrades_to_empty none (Or.inl rfl)

/-- C10: when the registry value is present but JSON.parse throws on
it, or it parses to null so that the chatrooms field access throws,
getChatrooms writes an empty registry object back to the chatrooms
key and returns the empty list. -/
theorem getChatrooms_writes_empty_registry (v : Option SVal)
    (h : v = some SVal.garbage ∨ v = some (SVal.json Json.null)) :
    getChatrooms v =
      ([("chatrooms", SVal.json (Json.obj [("chatrooms", Json.arr [])]))],
       some (Json.arr [])) := by
  rcases h with h | h <;> subst h <;> rfl

/-- Witness for the C10 theorem at an unparsable stored value. -/
theorem getChatrooms_writes_empty_registry_witness :
    getChatrooms (some SVal.garbage) =
      ([("chatrooms", SVal.json (Json.obj [("chatrooms", Json.arr [])]))],
       some (Json.arr [])) :=
  getChatrooms_writes_empty_registry (some SVal.garbage) (Or.inl rfl)

/-- C9: with a room session active, a failed or malformed fetch of the
room document does not fail sendMessage: the existing list is treated
as empty and the room document is overwritten with exactly the one new
message. -/
theorem sendMessage_overwrites_on_bad_fetch
    (r : String) (username : Option String) (text : String) (now : Int) (mid : String)
    (fetchRes : Except Unit (Option SVal))
    (h : fetchRes = Except.error () ∨ ∃ v, fetchRes = Except.ok v ∧ docMalformed v) :
    sendMessage (some r) username text now mid fetchRes =
      Except.ok [("chat:" ++ r, SVal.json (Json.obj [("messages",
        Json.arr [messageJson ⟨username.getD "Anonymous", text, now, mid⟩])]))] := by
  have hex : existingMessages fetchRes = [] := by
    rcases h with h | ⟨v, hv, hm⟩
    · subst h; rfl
    · subst hv
      show parseMessages v = []
      match v, hm with
      | none, hm => exact absurd hm (by simp [docMalformed])
      | some SVal.emptyStr, _ => rfl
      | some SVal.garbage, _ => rfl
      | some (SVal.json Json.null), _ => rfl
      | some (SVal.json (Json.bool b)), _ => rfl
      | some (SVal.json (Json.num n)), _ => rfl
      | some (SVal.json (Json.str s)), _ => rfl
      | some (SVal.json (Json.arr xs)), _ => rfl
      | some (SVal.json (Json.obj fs)), hm =>
          simp only [parseMessages]
          match hlook : fs.lookup "messages" with
          | some (Json.arr xs) => exact absurd hlook (hm xs)
          | some Json.null => rfl
          | some (Json.bool b) => rfl
          | some (Json.num n) => rfl
          | some (Json.str s) => rfl
          | some (Json.obj gs) => rfl
          | none => rfl
  simp [sendMessage, hex]

/-- Witness for the C9 theorem at a failed fetch. -/
theorem sendMessage_overwrites_on_bad_fetch_witness :
    sendMessage (some "r1") none "hello" 7 "m1" (Except.error ()) =
      Except.ok [("chat:" ++ "r1", SVal.json (Json.obj [("messages",
        Json.arr [messageJson ⟨(none : Option String).getD "Anonymous", "hello", 7, "m1"⟩])]))] :=
  sendMessage_overwrites_on_bad_fetch "r1" none "hello" 7 "m1" (Except.error ()) (Or.inl rfl)

/-- C3: a request whose correlation id receives no matching response
within the timeout budget settles with the timeout failure and its id
is removed from the pending table, whose size returns to its value
before the request was issued.  The hypothesis is the table invariant
that every pending id was allocated by the counter. -/
theorem request_timeout_settles_and_removes (s : MuxState)
    (hwf : ∀ k ∈ s.pending, k ≤ s.messageId)
    (hopen : s.ws = some ReadyState.opened) :
    ∃ mid, (request s).2 = Except.ok mid ∧
      (timeoutFires (request s).1 mid).2 = [Settle.timedOut mid] ∧
      mid ∉ (timeoutFires (request s).1 mid).1.pending ∧
      (timeoutFires (request s).1 mid).1.pending.length = s.pending.length := by
  refine ⟨s.messageId + 1, ?_, ?_, ?_, ?_⟩ <;>
  · have hfresh : s.messageId + 1 ∉ s.pending := fun hmem =>
      Nat.not_succ_le_self s.messageId (hwf _ hmem)
    have hreq : request s =
        ({ s with messageId := s.messageId + 1,
                  pending := s.pending ++ [s.messageId + 1] },
         Except.ok (s.messageId + 1)) := by
      simp [request, hopen]
    have hmem : s.messageId + 1 ∈ s.pending ++ [s.messageId + 1] := by simp
    have herase : (s.pending ++ [s.messageId + 1]).erase (s.messageId + 1) = s.pending := by
      rw [List.erase_append_right _ hfresh, List.erase_cons_head, List.append_nil]
    simp [hreq, timeoutFires, hmem, herase, hfresh]

/-- Witness for the C3 theorem at a connected client with two pending
requests. -/
theorem request_timeout_settles_and_removes_witness :
    ∃ mid, (request ⟨some ReadyState.opened, 5, true, [1, 2], 1⟩).2 = Except.ok mid ∧
      (timeoutFires (request ⟨some ReadyState.opened, 5, true, [1, 2], 1⟩).1 mid).2 =
        [Settle.timedOut mid] ∧
      mid ∉ (timeoutFires (request ⟨some ReadyState.opened, 5, true, [1, 2], 1⟩).1 mid).1.pending ∧
      (timeoutFires (request ⟨some ReadyState.opened, 5, true, [1, 2], 1⟩).1 mid).1.pending.length =
        (⟨some ReadyState.opened, 5, true, [1, 2], 1⟩ : MuxState).pending.length :=
  request_timeout_settles_and_removes ⟨some ReadyState.opened, 5, true, [1, 2], 1⟩
    (by decide) rfl

/-- C4: closing the transport while requests are outstanding settles
every pending call with the connection-closed failure, empties the
pending table, and every request issued while the socket is absent
fails fast with the not-connected error without reopening anything. -/
theorem close_settles_all_conn_closed (s : MuxState) (h : s.ws.isSome) :
    (oncloseEvent (close s)).2 = s.pending.map Settle.connClosed ∧
    (oncloseEvent (close s)).2.length = s.pending.length ∧
    (oncloseEvent (close s)).1.pending = [] ∧
    (oncloseEvent (close s)).1.ws = none ∧
    (∀ t : MuxState, t.ws = none →
      (request t).2 = Except.error ReqErr.notConnected ∧ (request t).1.ws = none) := by
  obtain ⟨r, hr⟩ := Option.isSome_iff_exists.mp h
  have hclose : close s = { s with ws := none, connPromise := false } := by
    unfold close
    rw [hr]
  refine ⟨?_, ?_, ?_, ?_, ?_⟩
  · simp [oncloseEvent, hclose]
  · simp [oncloseEvent, hclose]
  · simp [oncloseEvent, hclose]
  · simp [oncloseEvent, hclose]
  · intro t ht
    constructor
    · simp [request, ht]
    · simp [request, ht]

/-- Witness for the C4 theorem at a connected client with two pending
requests. -/
theorem close_settles_all_conn_closed_witness :
    (oncloseEvent (close ⟨some ReadyState.opened, 9, true, [7, 8], 1⟩)).2 =
      ([7, 8].map Settle.connClosed) ∧
    (oncloseEvent (close ⟨some ReadyState.opened, 9, true, [7, 8], 1⟩)).2.length =
      ([7, 8] : List Nat).length ∧
    (oncloseEvent (close ⟨some ReadyState.opened, 9, true, [7, 8], 1⟩)).1.pending = [] ∧
    (oncloseEvent (close ⟨some ReadyState.opened, 9, true, [7, 8], 1⟩)).1.ws = none ∧
    (∀ t : MuxState, t.ws = none →
      (request t).2 = Except.error ReqErr.notConnected ∧ (request t).1.ws = none) :=
  close_settles_all_conn_closed ⟨some ReadyState.opened, 9, true, [7, 8], 1⟩ rfl

/-- C7: connect on an already-open socket resolves immediately with no
socket-level action; connect during an in-flight handshake returns the
stored promise with no socket-level action; any connect creates at
most one socket, and when it does create one while a socket existed,
the old socket is closed first. -/
theorem connect_no_second_socket (s : MuxState) :
    (s.ws = some ReadyState.opened → connect s = (s, ConnOutcome.alreadyOpen, [])) ∧
    (s.connPromise = true → s.ws = some ReadyState.connecting →
      connect s = (s, ConnOutcome.inFlight, [])) ∧
    (connect s).2.2.count ConnAct.created ≤ 1 ∧
    (s.ws.isSome → (connect s).2.1 = ConnOutcome.attempt →
      (connect s).2.2 = [ConnAct.closedOld, ConnAct.created]) := by
  refine ⟨?_, ?_, ?_, ?_⟩
  · intro h1
    simp [connect, h1]
  · intro hp h2
    have hno : ¬ s.ws = some ReadyState.opened := by simp [h2]
    simp [connect, hno, hp, h2]
  · by_cases h1 : s.ws = some ReadyState.opened
    · simp [connect, h1]
    · by_cases h2 : s.connPromise = true ∧ s.ws = some ReadyState.connecting
      · simp [connect, h1, h2]
      · by_cases h3 : s.ws.isSome
        · simp [connect, h1, h2, h3, List.count_cons]
        · simp [connect, h1, h2, h3, List.count_cons]
  · intro hsome hatt
    by_cases h1 : s.ws = some ReadyState.opened
    · simp [connect, h1] at hatt
    · by_cases h2 : s.connPromise = true ∧ s.ws = some ReadyState.connecting
      · simp [connect, h1, h2] at hatt
      · simp [connect, h1, h2, hsome]

/-- Witness for the C7 theorem: an already-open client resolves with no
socket action. -/
theorem connect_no_second_socket_witness :
    connect ⟨some ReadyState.opened, 0, true, [], 1⟩ =
      (⟨some ReadyState.opened, 0, true, [], 1⟩, ConnOutcome.alreadyOpen, []) :=
  (connect_no_second_socket ⟨some ReadyState.opened, 0, true, [], 1⟩).1 rfl

/-- A room-document key never collides with the registry key. -/
theorem chatKey_ne_chatrooms (roomId : String) : "chat:" ++ roomId ≠ "chatrooms" := by
  intro h
  have hd : ("chat:" ++ roomId).data = "chatrooms".data := by rw [h]
  rw [String.data_append] at hd
  have h5 : "chat:".data = ['c', 'h', 'a', 't', ':'] := rfl
  rw [h5] at hd
  simp at hd

/-- Lookup of the chatrooms key after the field-preserving rewrite done
by setChatrooms. -/
theorem lookup_map_chatrooms (fs : List (String × Json)) (xs : List Json) :
    (fs.map (fun p => if p.1 = "chatrooms" then ("chatrooms", Json.arr xs) else p)).lookup
        "chatrooms"
      = (fs.lookup "chatrooms").map (fun _ => Json.arr xs) := by
  induction fs with
  | nil => rfl
  | cons p rest ih =>
      obtain ⟨k, w⟩ := p
      simp only [List.map_cons]
      dsimp only
      by_cases hk : k = "chatrooms"
      · subst hk
        rw [if_pos rfl, List.lookup_cons, List.lookup_cons]
        simp
      · rw [if_neg hk, List.lookup_cons, List.lookup_cons,
            beq_false_of_ne (Ne.symm hk)]
        exact ih

/-- A value whose chatrooms field is an array is an object whose field
list yields that array by lookup. -/
theorem chatrooms_shape (j : Json) (hj : isChatroomsArray j = true) :
    ∃ fs, j = Json.obj fs ∧
      fs.lookup "chatrooms" = some (Json.arr (registryRooms j)) := by
  cases j with
  | obj fs =>
      refine ⟨fs, rfl, ?_⟩
      cases hlook : fs.lookup "chatrooms" with
      | none => simp [isChatroomsArray, chatroomsField, jsField, hlook] at hj
      | some x =>
          cases x <;>
            simp [isChatroomsArray, chatroomsField, jsField, hlook] at hj ⊢
          simp [registryRooms, chatroomsField, jsField, hlook]
  | null => simp [isChatroomsArray, chatroomsField, jsField] at hj
  | bool b => simp [isChatroomsArray, chatroomsField, jsField] at hj
  | num n => simp [isChatroomsArray, chatroomsField, jsField] at hj
  | str s => simp [isChatroomsArray, chatroomsField, jsField] at hj
  | arr ys => simp [isChatroomsArray, chatroomsField, jsField] at hj

/-- The normalized registry always passes the structure check. -/
theorem isChatroomsArray_normalize (v : Option SVal) :
    isChatroomsArray (normalizeRegistry v) = true := by
  have hobj : isChatroomsArray (Json.obj [("chatrooms", Json.arr [])]) = true := rfl
  have hbase : ∀ j : Json,
      isChatroomsArray (if (jsFalsy j || !isChatroomsArray j) = true
          then Json.obj [("chatrooms", Json.arr [])] else j) = true := by
    intro j
    cases hA : isChatroomsArray j with
    | false => simp [hA, hobj]
    | true =>
        cases hF : jsFalsy j with
        | true => simp [hA, hF, hobj]
        | false => simp [hA, hF]
  match v with
  | none => exact hbase (Json.obj [("chatrooms", Json.arr [])])
  | some SVal.emptyStr => exact hbase (Json.obj [("chatrooms", Json.arr [])])
  | some SVal.garbage => exact hbase (Json.obj [("chatrooms", Json.arr [])])
  | some (SVal.json j) => exact hbase j

/-- The duplicate scan over an appended list continues into the suffix
when the prefix neither matches nor throws. -/
theorem jsSomeIdEq_append (xs ys : List Json) (rid : String)
    (h : jsSomeIdEq xs rid = Except.ok false) :
    jsSomeIdEq (xs ++ ys) rid = jsSomeIdEq ys rid := by
  induction xs with
  | nil => rfl
  | cons r rest ih =>
      rw [List.cons_append]
      cases hr : jsIdEq r rid with
      | error e => simp [jsSomeIdEq, hr] at h
      | ok b =>
          cases b
          · have hrest : jsSomeIdEq rest rid = Except.ok false := by
              simpa [jsSomeIdEq, hr] using h
            simp [jsSomeIdEq, hr, ih hrest]
          · simp [jsSomeIdEq, hr] at h

/-- The duplicate check matches the entry created for the same id. -/
theorem jsIdEq_roomJson (rid : String) (name : Option String) (now : Int) :
    jsIdEq (roomJson rid name now) rid = Except.ok true := by
  simp [jsIdEq, roomJson, List.lookup_cons]

/-- A non-throwing duplicate check computes exactly the Boolean id
comparison used to count entries. -/
theorem isIdStr_of_jsIdEq (r : Json) (rid : String) (b : Bool)
    (h : jsIdEq r rid = Except.ok b) : isIdStr r rid = b := by
  cases r with
  | null => simp [jsIdEq] at h
  | bool c =>
      simp [jsIdEq] at h
      simp [isIdStr, idField, ← h]
  | num n =>
      simp [jsIdEq] at h
      simp [isIdStr, idField, ← h]
  | str s =>
      simp [jsIdEq] at h
      simp [isIdStr, idField, ← h]
  | arr ys =>
      simp [jsIdEq] at h
      simp [isIdStr, idField, ← h]
  | obj fs =>
      cases hlook : fs.lookup "id" with
      | none =>
          simp [jsIdEq, hlook] at h
          simp [isIdStr, idField, hlook, ← h]
      | some j =>
          cases j <;> simp [jsIdEq, hlook] at h <;>
            simp [isIdStr, idField, hlook, ← h]

/-- A list the duplicate scan cleared has no entry with the given id. -/
theorem countId_zero_of_scan_false (xs : List Json) (rid : String)
    (h : jsSomeIdEq xs rid = Except.ok false) : countId xs rid = 0 := by
  induction xs with
  | nil => rfl
  | cons r rest ih =>
      cases hr : jsIdEq r rid with
      | error e => simp [jsSomeIdEq, hr] at h
      | ok b =>
          cases b
          · have hrest : jsSomeIdEq rest rid = Except.ok false := by
              simpa [jsSomeIdEq, hr] using h
            have hid : isIdStr r rid = false := isIdStr_of_jsIdEq r rid false hr
            have := ih hrest
            simp [countId, List.filter_cons, hid] at this ⊢
            exact this
          · simp [jsSomeIdEq, hr] at h

/-- Counting entries distributes over list append. -/
theorem countId_append (xs ys : List Json) (rid : String) :
    countId (xs ++ ys) rid = countId xs rid + countId ys rid := by
  simp [countId, List.filter_append]

/-- The entry created for an id counts exactly once for that id. -/
theorem countId_roomJson (rid : String) (name : Option String) (now : Int) :
    countId [roomJson rid name now] rid = 1 := by
  simp [countId, List.filter_cons, isIdStr, idField, roomJson, List.lookup_cons]

/-- C1 counterexample: creating a fresh room in an empty store issues
exactly one write, to the registry key; no empty room document write
precedes it, so the two-write description of createRoom is false. -/
theorem createChatroom_not_two_writes : ¬ C1TwoWriteClaim := by
  intro hclaim
  obtain ⟨v, hv⟩ := hclaim "r1" none 0 emptyStore
    (Store.set emptyStore "chatrooms" regAfterR1, [("chatrooms", regAfterR1)]) rfl
  simp at hv

/-- C1 amended: a successful createRoom call performs exactly one
write, overwriting the registry with the appended entry, and never
writes the room-document key of the new room. -/
theorem createChatroom_single_registry_write
    (roomId : String) (roomName : Option String) (now : Int) (st : Store)
    (res : Store × List (String × SVal))
    (h : createChatroom roomId roomName now st = Except.ok res) :
    (∃ v, res.2 = [("chatrooms", v)]) ∧
    ("chat:" ++ roomId) ∉ res.2.map Prod.fst := by
  simp only [createChatroom] at h
  split at h
  · exact absurd h (by simp)
  · exact absurd h (by simp)
  · injection h with h2
    subst h2
    refine ⟨⟨_, rfl⟩, ?_⟩
    simp only [List.map_cons, List.map_nil, List.mem_singleton]
    exact chatKey_ne_chatrooms roomId

/-- Witness for the amended C1 theorem: creating r1 in the empty store
writes the registry once and touches no room-document key. -/
theorem createChatroom_single_registry_write_witness :
    (∃ v, ([("chatrooms", regAfterR1)] : List (String × SVal)) = [("chatrooms", v)]) ∧
    ("chat:" ++ "r1") ∉ ([("chatrooms", regAfterR1)] : List (String × SVal)).map Prod.fst :=
  createChatroom_single_registry_write "r1" none 0 emptyStore
    (Store.set emptyStore "chatrooms" regAfterR1, [("chatrooms", regAfterR1)]) rfl

/-- A truthy value passing the structure check is kept unchanged by the
registry normalization. -/
theorem normalizeRegistry_id (j : Json) (hf : jsFalsy j = false)
    (ha : isChatroomsArray j = true) :
    normalizeRegistry (some (SVal.json j)) = j := by
  simp [normalizeRegistry, hf, ha]

/-- Reading the rooms of a value whose chatrooms field is a known
array yields that array. -/
theorem registryRooms_of_chatroomsField (j : Json) (xs : List Json)
    (h : chatroomsField j = some (Json.arr xs)) : registryRooms j = xs := by
  simp [registryRooms, h]

/-- A value whose chatrooms field is an array passes the array check. -/
theorem isChatroomsArray_of_some_arr (j : Json) (xs : List Json)
    (h : chatroomsField j = some (Json.arr xs)) : isChatroomsArray j = true := by
  simp [isChatroomsArray, h]

/-- Rewriting the chatrooms field of an object is truthy. -/
theorem jsFalsy_setChatrooms_obj (fs : List (String × Json)) (xs : List Json) :
    jsFalsy (setChatrooms (Json.obj fs) xs) = false := rfl

/-- C6: after a successful creation of room r, creating r again fails
with the already-exists rejection, and the stored registry holds
exactly one entry whose id is r. -/
theorem createChatroom_twice_already_exists
    (r : String) (n1 n2 : Option String) (t1 t2 : Int) (st : Store)
    (res : Store × List (String × SVal))
    (h : createChatroom r n1 t1 st = Except.ok res) :
    createChatroom r n2 t2 res.1 = Except.error CreateErr.alreadyExists ∧
    countId (storedRegistryRooms res.1) r = 1 := by
  simp only [createChatroom] at h
  split at h
  · exact absurd h (by simp)
  · exact absurd h (by simp)
  · rename_i hms
    injection h with h2
    subst h2
    obtain ⟨fs, hfs, hlook⟩ :=
      chatrooms_shape (normalizeRegistry (st "chatrooms"))
        (isChatroomsArray_normalize (st "chatrooms"))
    have hnewlook : chatroomsField
        (setChatrooms (normalizeRegistry (st "chatrooms"))
          (registryRooms (normalizeRegistry (st "chatrooms")) ++ [roomJson r n1 t1]))
        = some (Json.arr
            (registryRooms (normalizeRegistry (st "chatrooms")) ++ [roomJson r n1 t1])) := by
      rw [hfs] at hlook ⊢
      simp only [setChatrooms, chatroomsField, jsField]
      rw [lookup_map_chatrooms, hlook]
      rfl
    have hfalsy : jsFalsy
        (setChatrooms (normalizeRegistry (st "chatrooms"))
          (registryRooms (normalizeRegistry (st "chatrooms")) ++ [roomJson r n1 t1]))
        = false := by
      rw [hfs]
      exact jsFalsy_setChatrooms_obj fs _
    have hisarr := isChatroomsArray_of_some_arr _ _ hnewlook
    have hnorm := normalizeRegistry_id _ hfalsy hisarr
    have hrooms := registryRooms_of_chatroomsField _ _ hnewlook
    have hscan : jsSomeIdEq
        (registryRooms (normalizeRegistry (st "chatrooms")) ++ [roomJson r n1 t1]) r
        = Except.ok true := by
      rw [jsSomeIdEq_append _ _ _ hms]
      simp [jsSomeIdEq, jsIdEq_roomJson]
    have hget : (Store.set st "chatrooms" (SVal.json
        (setChatrooms (normalizeRegistry (st "chatrooms"))
          (registryRooms (normalizeRegistry (st "chatrooms")) ++ [roomJson r n1 t1]))))
        "chatrooms"
        = some (SVal.json
            (setChatrooms (normalizeRegistry (st "chatrooms"))
              (registryRooms (normalizeRegistry (st "chatrooms")) ++ [roomJson r n1 t1]))) := by
      simp [Store.set]
    constructor
    · dsimp only
      simp only [createChatroom, hget, hnorm, hrooms, hscan]
    · dsimp only
      simp only [storedRegistryRooms, hget, hrooms]
      rw [countId_append, countId_zero_of_scan_false _ _ hms, countId_roomJson]

/-- Witness for the C6 theorem: creating r1 twice from the empty store
fails the second call and leaves one r1 entry in the registry. -/
theorem createChatroom_twice_already_exists_witness :
    createChatroom "r1" none 1
        (Store.set emptyStore "chatrooms" regAfterR1, [("chatrooms", regAfterR1)]).1
      = Except.error CreateErr.alreadyExists ∧
    countId (storedRegistryRooms
        (Store.set emptyStore "chatrooms" regAfterR1, [("chatrooms", regAfterR1)]).1) "r1" = 1 :=
  createChatroom_twice_already_exists "r1" none none 0 1 emptyStore
    (Store.set emptyStore "chatrooms" regAfterR1, [("chatrooms", regAfterR1)]) rfl
